import Mathlib

/-!
Shallow embedding of the MATRXe deferred-billing core
(src/backend/app/services/billing_service.py, configuration from
src/backend/app/config/settings.py).

Modelling conventions:
- Dates are day numbers (integers); Python date subtraction `(a - b).days`
  becomes integer subtraction, and `timedelta(days = n)` becomes `+ n`.
- Python `Decimal` and monetary `float` values are modelled as exact
  rationals; the claims under study are about the billing algorithms
  (tolerances, thresholds, percentages), all of which are exact decimal
  computations at the scales involved.
- The service operates on one account at a time (every operation loads one
  user row by id); the state is that user's row, the account's credit
  transaction list (newest first; the database appends) and the account's
  invoice (DeferredPayment) list in insertion order.  Invoices are
  addressed by their position in that list, playing the role of the
  database primary key.
- Informational fields that no operation reads back (usage_summary
  snapshots, emails, uuid ids, created_at timestamps) are omitted;
  the external email collaborator is modelled by returning the list of
  notification triggers the sweep would emit.
- Python `int(Decimal)` truncates toward zero: `pyInt` below.
-/

namespace Matrxe

/-- Configuration from settings.py: CREDIT_PRICE = 0.01 dollars per credit. -/
def CREDIT_PRICE : ℚ := 1 / 100

/-- Configuration from settings.py: TRIAL_CREDITS = 1000. -/
def TRIAL_CREDITS : ℤ := 1000

/-- Configuration from settings.py: MIN_DEFERRED_AMOUNT = 10.0. -/
def MIN_DEFERRED_AMOUNT : ℚ := 10

/-- Configuration from settings.py: LATE_FEE_PERCENTAGE = 5.0. -/
def LATE_FEE_PERCENTAGE : ℚ := 5

/-- Configuration from settings.py: DEFERRED_PAYMENT_GRACE_DAYS = 7. -/
def DEFERRED_PAYMENT_GRACE_DAYS : ℤ := 7

/-- Configuration from settings.py: DEFAULT_CURRENCY = USD. -/
def DEFAULT_CURRENCY : String := "USD"

/-- Python int() applied to a (reduced) rational: truncation toward zero. -/
def pyInt (q : ℚ) : ℤ := q.num.tdiv q.den

/-- The billing-relevant columns of the User row (app.models.user.User)
read and written by BillingService. -/
structure User where
  total_credits : ℤ
  used_credits : ℤ
  trial_end_date : Option ℤ
  subscription_tier : String
  deferred_payment_balance : ℚ
  total_spent : ℚ
  next_payment_due_date : Option ℤ := none
  deriving DecidableEq, Repr

/-- A CreditTransaction row (app.models.billing.CreditTransaction) as
created by deduct_credits, add_credits and process_payment. -/
structure CreditTransaction where
  transaction_type : String
  amount : ℚ
  credits_granted : Option ℤ := none
  credits_used : Option ℤ := none
  service_type : Option String := none
  unit_price : ℚ := 0
  total_price : ℚ := 0
  payment_method : Option String := none
  payment_reference : Option String := none
  status : String := "completed"
  description : String := ""
  deriving DecidableEq, Repr

/-- A DeferredPayment row (an invoice) as created and mutated by
generate_deferred_invoice, process_payment and check_overdue_invoices. -/
structure DeferredPayment where
  invoice_number : String
  total_amount : ℚ
  currency : String
  billing_period_start : ℤ
  billing_period_end : ℤ
  status : String
  payment_due_date : ℤ
  overdue_days : ℤ := 0
  is_overdue : Bool := false
  late_fee : ℚ := 0
  payment_date : Option ℤ := none
  payment_method : Option String := none
  payment_reference : Option String := none
  deriving DecidableEq, Repr

/-- The persistent state one account's billing operations touch. -/
structure BillingState where
  user : User
  ledger : List CreditTransaction
  invoices : List DeferredPayment
  deriving DecidableEq, Repr

/-- BillingService._is_trial_active: trial is active while
datetime.utcnow().date() is at most trial_end_date. -/
def _is_trial_active (user : User) (today : ℤ) : Bool :=
  match user.trial_end_date with
  | none => false
  | some d => today ≤ d

/-- Result dictionary of BillingService.deduct_credits. -/
inductive DeductOutcome where
  | success (credits_deducted : ℚ) (remaining_credits : ℤ) (deferred_balance : ℚ)
  | insufficientCredits (available : ℤ) (required : ℚ)
  deriving DecidableEq, Repr

/-- Whether a deduct result has success = True. -/
def DeductOutcome.isSuccess : DeductOutcome → Bool
  | .success _ _ _ => true
  | .insufficientCredits _ _ => false

/-- BillingService.deduct_credits: check available credits (with the
trial-credit override), then append one usage CreditTransaction with
credits_used = int(amount), add int(amount) to used_credits, add the
monetary value to total_spent, and, when the trial is over while the
subscription tier is still trial, add the monetary value to the deferred
payment balance.  On an insufficient balance it returns the error before
any mutation. -/
def deduct_credits (s : BillingState) (today : ℤ) (service_type : String)
    (amount : ℚ) (description : String) : BillingState × DeductOutcome :=
  let user := s.user
  let available_credits := user.total_credits - user.used_credits
  if (available_credits : ℚ) < amount ∧
      ¬(_is_trial_active user today = true ∧ user.used_credits < TRIAL_CREDITS) then
    (s, .insufficientCredits available_credits amount)
  else
    let txn : CreditTransaction :=
      { transaction_type := "usage"
        amount := -amount
        credits_used := some (pyInt amount)
        service_type := some service_type
        unit_price := CREDIT_PRICE
        total_price := amount * CREDIT_PRICE
        status := "completed"
        description := description }
    let user' : User :=
      { user with
        used_credits := user.used_credits + pyInt amount
        total_spent := user.total_spent + amount * CREDIT_PRICE
        deferred_payment_balance :=
          if ¬_is_trial_active user today = true ∧ user.subscription_tier = "trial" then
            user.deferred_payment_balance + amount * CREDIT_PRICE
          else
            user.deferred_payment_balance }
    ({ s with user := user', ledger := txn :: s.ledger },
      .success amount (user'.total_credits - user'.used_credits)
        user'.deferred_payment_balance)

/-- Result dictionary of BillingService.add_credits (with the user row
present, add_credits always succeeds). -/
inductive AddOutcome where
  | success (credits_added : ℤ) (total_credits : ℤ) (amount_paid : ℚ)
  deriving DecidableEq, Repr

/-- BillingService.add_credits: append one purchase-kind CreditTransaction
with credits_granted = credits_amount and add credits_amount to
total_credits. -/
def add_credits (s : BillingState) (credits_amount : ℤ) (transaction_type : String)
    (payment_method payment_reference : Option String) :
    BillingState × AddOutcome :=
  let amount := (credits_amount : ℚ) * CREDIT_PRICE
  let txn : CreditTransaction :=
    { transaction_type := transaction_type
      amount := amount
      credits_granted := some credits_amount
      payment_method := payment_method
      payment_reference := payment_reference
      unit_price := CREDIT_PRICE
      total_price := amount
      status := "completed"
      description := "Added credits" }
  let user' : User := { s.user with total_credits := s.user.total_credits + credits_amount }
  ({ s with user := user', ledger := txn :: s.ledger },
    .success credits_amount user'.total_credits amount)

/-- Result dictionary of BillingService.generate_deferred_invoice. -/
inductive InvoiceOutcome where
  | success (invoice_number : String) (amount : ℚ) (due_date : ℤ)
  | belowMinimum (current_balance : ℚ)
  deriving DecidableEq, Repr

/-- Whether a generate_deferred_invoice result has success = True. -/
def InvoiceOutcome.isSuccess : InvoiceOutcome → Bool
  | .success _ _ _ => true
  | .belowMinimum _ => false

/-- BillingService.generate_deferred_invoice: snapshot the user's deferred
payment balance as the invoice total; below MIN_DEFERRED_AMOUNT fail with
the current balance and no mutation; otherwise insert a pending invoice
whose payment_due_date is period_end + DEFERRED_PAYMENT_GRACE_DAYS, reset
the deferred balance to zero and record the next payment due date.  The
invoice number comes from the uuid/timestamp helper and is a parameter
here. -/
def generate_deferred_invoice (s : BillingState) (period_start period_end : ℤ)
    (invoice_number : String) : BillingState × InvoiceOutcome :=
  let total_amount := s.user.deferred_payment_balance
  if total_amount < MIN_DEFERRED_AMOUNT then
    (s, .belowMinimum total_amount)
  else
    let payment_due_date := period_end + DEFERRED_PAYMENT_GRACE_DAYS
    let invoice : DeferredPayment :=
      { invoice_number := invoice_number
        total_amount := total_amount
        currency := DEFAULT_CURRENCY
        billing_period_start := period_start
        billing_period_end := period_end
        status := "pending"
        payment_due_date := payment_due_date }
    let user' : User :=
      { s.user with
        deferred_payment_balance := 0
        next_payment_due_date := some payment_due_date }
    ({ s with user := user', invoices := s.invoices ++ [invoice] },
      .success invoice_number total_amount payment_due_date)

/-- Result dictionary of BillingService.process_payment. -/
inductive PaymentOutcome where
  | success (invoice_number : String) (amount_paid : ℚ) (payment_date : ℤ)
  | amountMismatch (expected : ℚ) (got : ℚ)
  | invoiceNotFound
  deriving DecidableEq, Repr

/-- Whether a process_payment result has success = True. -/
def PaymentOutcome.isSuccess : PaymentOutcome → Bool
  | .success _ _ _ => true
  | .amountMismatch _ _ => false
  | .invoiceNotFound => false

/-- BillingService.process_payment: load the invoice, convert the tendered
amount into the invoice currency through the external convert_currency
collaborator when the currencies differ, reject when the converted amount
is more than 0.01 away from the invoice total (before any mutation), and
otherwise mark the invoice paid, record the payment method, reference and
date, and append a payment CreditTransaction carrying the invoice total.
The function never inspects the invoice's current status. -/
def process_payment (convert_currency : ℚ → String → String → ℚ)
    (s : BillingState) (invoice_id : ℕ) (payment_method payment_reference : String)
    (amount : ℚ) (currency : String) (today : ℤ) :
    BillingState × PaymentOutcome :=
  match s.invoices.get? invoice_id with
  | none => (s, .invoiceNotFound)
  | some invoice =>
    let converted_amount :=
      if currency = invoice.currency then amount
      else convert_currency amount currency invoice.currency
    if |converted_amount - invoice.total_amount| > 1 / 100 then
      (s, .amountMismatch invoice.total_amount converted_amount)
    else
      let invoice' : DeferredPayment :=
        { invoice with
          status := "paid"
          payment_date := some today
          payment_method := some payment_method
          payment_reference := some payment_reference }
      let txn : CreditTransaction :=
        { transaction_type := "payment"
          amount := invoice.total_amount
          payment_method := some payment_method
          payment_reference := some payment_reference
          status := "completed"
          description := "Payment for invoice" }
      ({ s with invoices := s.invoices.set invoice_id invoice', ledger := txn :: s.ledger },
        .success invoice.invoice_number invoice.total_amount today)

/-- The data handed to the external overdue-reminder email collaborator. -/
structure OverdueReminder where
  invoice_number : String
  amount : ℚ
  overdue_days : ℤ
  deriving DecidableEq, Repr

/-- The per-invoice body of the check_overdue_invoices loop.  Only invoices
matching the sweep's select (status pending and payment_due_date before
today) are modified: the overdue-day count is recorded, the invoice is
reclassified overdue, a late fee of LATE_FEE_PERCENTAGE percent of the
current total is added once the overdue-day count exceeds 7, and a
reminder trigger is emitted when the overdue-day count is a multiple
of 7. -/
def sweepInvoice (today : ℤ) (invoice : DeferredPayment) :
    DeferredPayment × List OverdueReminder :=
  if invoice.status = "pending" ∧ invoice.payment_due_date < today then
    let overdue_days := today - invoice.payment_due_date
    let inv1 : DeferredPayment :=
      { invoice with overdue_days := overdue_days, is_overdue := true, status := "overdue" }
    let inv2 : DeferredPayment :=
      if overdue_days > 7 then
        let late_fee := inv1.total_amount * (LATE_FEE_PERCENTAGE / 100)
        { inv1 with late_fee := late_fee, total_amount := inv1.total_amount + late_fee }
      else inv1
    let reminders :=
      if overdue_days % 7 = 0 then
        [{ invoice_number := inv2.invoice_number, amount := inv2.total_amount,
           overdue_days := overdue_days : OverdueReminder }]
      else []
    (inv2, reminders)
  else
    (invoice, [])

/-- BillingService.check_overdue_invoices run at a given date: apply the
sweep body to the account's invoices and collect the reminder triggers
sent to the email collaborator. -/
def check_overdue_invoices (s : BillingState) (today : ℤ) :
    BillingState × List OverdueReminder :=
  let results := s.invoices.map (sweepInvoice today)
  ({ s with invoices := results.map Prod.fst }, (results.map Prod.snd).flatten)

/-- The sweep's select predicate restated on one invoice: status pending
and due date strictly before today. -/
def sweepSelects (today : ℤ) (invoice : DeferredPayment) : Prop :=
  invoice.status = "pending" ∧ invoice.payment_due_date < today

instance (today : ℤ) (invoice : DeferredPayment) : Decidable (sweepSelects today invoice) :=
  inferInstanceAs (Decidable (_ ∧ _))

/-- The status filter of _calculate_deferred_balance and
get_outstanding_invoices: pending or overdue. -/
def isUnpaid (invoice : DeferredPayment) : Bool :=
  invoice.status == "pending" || invoice.status == "overdue"

/-- The SQL sum of total_amount over the invoices kept by the unpaid
filter. -/
def unpaidTotal : List DeferredPayment → ℚ
  | [] => 0
  | invoice :: rest =>
      (if isUnpaid invoice then invoice.total_amount else 0) + unpaidTotal rest

/-- BillingService._calculate_deferred_balance: the user's unbilled
deferred balance plus the summed total_amount of the account's pending and
overdue invoices. -/
def _calculate_deferred_balance (s : BillingState) : ℚ :=
  s.user.deferred_payment_balance + unpaidTotal s.invoices

/-- The balance fields of the dictionary BillingService.get_user_credits
returns. -/
structure UserCreditsReport where
  total_credits : ℤ
  used_credits : ℤ
  available_credits : ℤ
  deferred_balance : ℚ
  is_trial_active : Bool
  deriving DecidableEq, Repr

/-- BillingService.get_user_credits (balance fields; the period-usage
snapshot and constant price/currency echoes are informational). -/
def get_user_credits (s : BillingState) (today : ℤ) : UserCreditsReport :=
  { total_credits := s.user.total_credits
    used_credits := s.user.used_credits
    available_credits := s.user.total_credits - s.user.used_credits
    deferred_balance := _calculate_deferred_balance s
    is_trial_active := _is_trial_active s.user today }

/-- The spec's signed credit_delta of a ledger entry, read off the source's
CreditTransaction columns: credits granted minus credits used (each None
counting as zero, as in _calculate_period_usage). -/
def creditDelta (t : CreditTransaction) : ℤ :=
  t.credits_granted.getD 0 - t.credits_used.getD 0

/-- Sum of credit_delta over a ledger. -/
def ledgerDeltaSum (l : List CreditTransaction) : ℤ :=
  (l.map creditDelta).sum

/-- One call against the credit account: a debit (deduct_credits, whole
credits) or a credit grant (add_credits). -/
inductive BillingOp where
  | debit (service_type : String) (amount : ℤ) (description : String)
  | credit (credits_amount : ℤ) (transaction_type : String)
  deriving DecidableEq, Repr

/-- Apply one operation, returning the new state and whether the call
reported success. -/
def applyOp (today : ℤ) (s : BillingState) : BillingOp → BillingState × Bool
  | .debit service_type a description =>
      let r := deduct_credits s today service_type (a : ℚ) description
      (r.1, r.2.isSuccess)
  | .credit n transaction_type =>
      let r := add_credits s n transaction_type none none
      (r.1, true)

/-- Run a sequence of operations left to right. -/
def runOps (today : ℤ) (s : BillingState) : List BillingOp → BillingState
  | [] => s
  | op :: rest => runOps today (applyOp today s op).1 rest

/-- All operations in the sequence report success when run in order. -/
def opsAllSucceed (today : ℤ) (s : BillingState) : List BillingOp → Bool
  | [] => true
  | op :: rest =>
      (applyOp today s op).2 && opsAllSucceed today (applyOp today s op).1 rest

/-- Credits granted by a sequence of operations. -/
def opsGranted : List BillingOp → ℤ
  | [] => 0
  | .debit _ _ _ :: rest => opsGranted rest
  | .credit n _ :: rest => n + opsGranted rest

/-- Credits consumed (requested by debits) in a sequence of operations. -/
def opsConsumed : List BillingOp → ℤ
  | [] => 0
  | .debit _ a _ :: rest => a + opsConsumed rest
  | .credit _ _ :: rest => opsConsumed rest

/-- Python int() of a rational that is an integer is that integer. -/
theorem pyInt_intCast (a : ℤ) : pyInt (a : ℚ) = a := by
  simp [pyInt]

/-- Configuration from settings.py: VOICE_MINUTE_COST = 10 credits. -/
def VOICE_MINUTE_COST : ℚ := 10

/-- Configuration from settings.py: CHAT_MESSAGE_COST = 1 credit. -/
def CHAT_MESSAGE_COST : ℚ := 1

/-- Configuration from settings.py: FACE_PROCESSING_COST = 5 credits. -/
def FACE_PROCESSING_COST : ℚ := 5

/-- Pricing-table entry storage.per_gb_per_month = 100 credits. -/
def STORAGE_GB_MONTH_COST : ℚ := 100

/-- Pricing-table entry tasks.per_task_execution = 5 credits. -/
def TASK_EXECUTION_COST : ℚ := 5

/-- Python truthiness of the optional duration argument: None and 0 are
falsy. -/
def durationTruthy : Option ℤ → Bool
  | none => false
  | some d => d ≠ 0

/-- BillingService.calculate_service_cost over the constructor's pricing
table (whose entries come from the settings above; the dict-lookup
fallbacks in the source equal the same configured values).  A custom rate
short-circuits to rate times quantity; the voice branch also requires a
truthy duration; a service type matching no branch costs zero. -/
def calculate_service_cost (service_type : String) (quantity : ℤ)
    (duration : Option ℤ) (custom_rate : Option ℚ) : ℚ :=
  match custom_rate with
  | some rate => rate * quantity
  | none =>
    if service_type = "voice_processing" ∧ durationTruthy duration = true then
      let minutes : ℚ := (duration.getD 0 : ℚ) / 60
      VOICE_MINUTE_COST * minutes * quantity
    else if service_type = "chat_processing" then
      CHAT_MESSAGE_COST * quantity
    else if service_type = "face_processing" then
      FACE_PROCESSING_COST * quantity
    else if service_type = "storage" then
      STORAGE_GB_MONTH_COST * quantity
    else if service_type = "tasks" then
      TASK_EXECUTION_COST * quantity
    else
      0

/-- Fuel-driven floor of the base-2 logarithm of a positive natural
number (the fuel argument only bounds the recursion so that the kernel
can evaluate it; called with the number itself as fuel). -/
def log2Fuel : ℕ → ℕ → ℕ
  | 0, _ => 0
  | fuel + 1, n => if 2 ≤ n then log2Fuel fuel (n / 2) + 1 else 0

/-- Floor of the base-2 logarithm of the positive rational n / d. -/
def floorLog2 (n d : ℕ) : ℤ :=
  let a := log2Fuel n n
  let b := log2Fuel d d
  if b ≤ a then
    (if d * 2 ^ (a - b) ≤ n then ((a - b : ℕ) : ℤ) else ((a - b : ℕ) : ℤ) - 1)
  else
    (if d ≤ n * 2 ^ (b - a) then -((b - a : ℕ) : ℤ) else -((b - a : ℕ) : ℤ) - 1)

/-- Round the fraction N / D to the nearest natural number, ties to even
(the IEEE-754 default rounding). -/
def roundNearestEven (N D : ℕ) : ℕ :=
  let q := N / D
  let r := N % D
  if 2 * r < D then q
  else if D < 2 * r then q + 1
  else if q % 2 = 0 then q else q + 1

/-- Round a rational to the nearest IEEE-754 binary64 (double) value:
53-bit significand, round to nearest with ties to even.  The exponent is
unbounded, which agrees with binary64 at every magnitude the billing
amounts reach (no overflow or subnormals there).  Built from integer
arithmetic and mkRat so the kernel can evaluate it on literals. -/
def fl (x : ℚ) : ℚ :=
  if x = 0 then 0
  else
    let n := x.num.natAbs
    let d := x.den
    let e : ℤ := floorLog2 n d - 52
    let m : ℕ :=
      if 0 ≤ e then roundNearestEven n (d * 2 ^ e.toNat)
      else roundNearestEven (n * 2 ^ (-e).toNat) d
    let sn : ℤ := if x.num < 0 then -(m : ℤ) else (m : ℤ)
    if 0 ≤ e then mkRat (sn * 2 ^ e.toNat) 1 else mkRat sn (2 ^ (-e).toNat)

/-- BillingService.process_payment with its amount comparison at IEEE-754
double precision, as the Python program executes it: the tendered amount
and the stored invoice total are doubles (fl of the written decimals),
their difference is the correctly rounded double subtraction fl of the
exact difference, and the literal 0.01 is the double nearest it, written
mkRat 1 100 = 1/100 here so the kernel can evaluate.  Everything else is
identical to process_payment; the exact-rational process_payment above and
this refinement differ only when a comparison lands within one rounding
error of the 0.01 boundary. -/
def process_payment_fp (convert_currency : ℚ → String → String → ℚ)
    (s : BillingState) (invoice_id : ℕ) (payment_method payment_reference : String)
    (amount : ℚ) (currency : String) (today : ℤ) :
    BillingState × PaymentOutcome :=
  match s.invoices.get? invoice_id with
  | none => (s, .invoiceNotFound)
  | some invoice =>
    let converted_amount :=
      if currency = invoice.currency then amount
      else convert_currency amount currency invoice.currency
    if |fl (fl converted_amount - fl invoice.total_amount)| > fl (mkRat 1 100) then
      (s, .amountMismatch invoice.total_amount converted_amount)
    else
      let invoice' : DeferredPayment :=
        { invoice with
          status := "paid"
          payment_date := some today
          payment_method := some payment_method
          payment_reference := some payment_reference }
      let txn : CreditTransaction :=
        { transaction_type := "payment"
          amount := invoice.total_amount
          payment_method := some payment_method
          payment_reference := some payment_reference
          status := "completed"
          description := "Payment for invoice" }
      ({ s with invoices := s.invoices.set invoice_id invoice', ledger := txn :: s.ledger },
        .success invoice.invoice_number invoice.total_amount today)

/-!
Claim theorems.
-/

/-- Claim C3: for every account whose trial is not active (or whose trial
credits are exhausted) and every debit amount greater than the available
credits, deduct_credits fails with the insufficient-credits error carrying
the available and required amounts, and the account state and ledger are
exactly as before the call. -/
theorem c3_deduct_insufficient_fails (s : BillingState) (today : ℤ)
    (service_type description : String) (amount : ℚ)
    (htrial : _is_trial_active s.user today = false ∨
      TRIAL_CREDITS ≤ s.user.used_credits)
    (hamt : ((s.user.total_credits - s.user.used_credits : ℤ) : ℚ) < amount) :
    deduct_credits s today service_type amount description =
      (s, .insufficientCredits (s.user.total_credits - s.user.used_credits) amount) := by
  simp only [deduct_credits]
  rw [if_pos]
  refine ⟨hamt, ?_⟩
  rintro ⟨hact, hlt⟩
  rcases htrial with h | h
  · rw [h] at hact
    exact Bool.false_ne_true hact
  · omega

/-- Concrete account for the C3 witness: the spec example with 1000 total
credits, 1000 used credits and no active trial. -/
def c3_state : BillingState :=
  { user := { total_credits := 1000, used_credits := 1000, trial_end_date := none,
              subscription_tier := "trial", deferred_payment_balance := 0,
              total_spent := 0 },
    ledger := [], invoices := [] }

/-- Witness for C3: the exhausted account rejects a debit of one credit
with available 0 and required 1, changing nothing. -/
theorem c3_deduct_insufficient_fails_witness :
    deduct_credits c3_state 0 "chat_processing" 1 "one message" =
      (c3_state, .insufficientCredits 0 1) :=
  c3_deduct_insufficient_fails c3_state 0 "chat_processing" "one message" 1
    (Or.inl rfl) (by norm_num [c3_state])

/-- Claim C9: a service type outside the pricing table with no custom rate
costs zero for every quantity and duration, and a supplied custom rate
prices any call at rate times quantity regardless of service type. -/
theorem c9_unknown_service_and_custom_rate (service_type : String) (quantity : ℤ)
    (duration : Option ℤ)
    (h1 : service_type ≠ "voice_processing") (h2 : service_type ≠ "chat_processing")
    (h3 : service_type ≠ "face_processing") (h4 : service_type ≠ "storage")
    (h5 : service_type ≠ "tasks") :
    calculate_service_cost service_type quantity duration none = 0 ∧
    ∀ (st : String) (q : ℤ) (dur : Option ℤ) (rate : ℚ),
      calculate_service_cost st q dur (some rate) = rate * q := by
  constructor
  · simp [calculate_service_cost, h1, h2, h3, h4, h5]
  · intro st q dur rate
    simp [calculate_service_cost]

/-- Witness for C9: an unpriced service type costs 0 at quantity 3 and
duration 120, and a custom rate of 7/2 at quantity 4 costs 14 even for a
priced service type. -/
theorem c9_unknown_service_and_custom_rate_witness :
    calculate_service_cost "subtitle_rendering" 3 (some 120) none = 0 ∧
    calculate_service_cost "voice_processing" 4 (some 120) (some (7/2)) = 14 := by
  have h := c9_unknown_service_and_custom_rate "subtitle_rendering" 3 (some 120)
    (by decide) (by decide) (by decide) (by decide) (by decide)
  refine ⟨h.1, ?_⟩
  rw [h.2 "voice_processing" 4 (some 120) (7/2)]
  norm_num

/-- Claim C7: generate_deferred_invoice fails below the configured minimum
with the current balance and no mutation; at or above the minimum it
creates a pending invoice carrying the whole deferred balance, due at
period_end plus the grace days, and zeroes the account's deferred
balance. -/
theorem c7_generate_invoice_minimum_policy (s : BillingState)
    (period_start period_end : ℤ) (invoice_number : String) :
    (s.user.deferred_payment_balance < MIN_DEFERRED_AMOUNT →
      generate_deferred_invoice s period_start period_end invoice_number =
        (s, .belowMinimum s.user.deferred_payment_balance)) ∧
    (MIN_DEFERRED_AMOUNT ≤ s.user.deferred_payment_balance →
      generate_deferred_invoice s period_start period_end invoice_number =
        ({ user := { s.user with
              deferred_payment_balance := 0,
              next_payment_due_date := some (period_end + DEFERRED_PAYMENT_GRACE_DAYS) },
            ledger := s.ledger,
            invoices := s.invoices ++
              [{ invoice_number := invoice_number,
                 total_amount := s.user.deferred_payment_balance,
                 currency := DEFAULT_CURRENCY,
                 billing_period_start := period_start,
                 billing_period_end := period_end,
                 status := "pending",
                 payment_due_date := period_end + DEFERRED_PAYMENT_GRACE_DAYS }] },
          .success invoice_number s.user.deferred_payment_balance
            (period_end + DEFERRED_PAYMENT_GRACE_DAYS))) := by
  constructor
  · intro h
    simp only [generate_deferred_invoice]
    rw [if_pos h]
  · intro h
    simp only [generate_deferred_invoice]
    rw [if_neg (not_lt.mpr h)]

/-- Concrete account below the invoice minimum (balance 5.00). -/
def c7_low_state : BillingState :=
  { user := { total_credits := 2000, used_credits := 1500, trial_end_date := none,
              subscription_tier := "trial", deferred_payment_balance := 5,
              total_spent := 5 },
    ledger := [], invoices := [] }

/-- Concrete account above the invoice minimum (balance 15.00). -/
def c7_high_state : BillingState :=
  { user := { total_credits := 2000, used_credits := 1500, trial_end_date := none,
              subscription_tier := "trial", deferred_payment_balance := 15,
              total_spent := 15 },
    ledger := [], invoices := [] }

/-- Witness for C7: balance 5.00 fails below the 10.0 minimum; balance
15.00 yields an invoice of 15.00 due at period_end + 7 and resets the
deferred balance to 0. -/
theorem c7_generate_invoice_minimum_policy_witness :
    generate_deferred_invoice c7_low_state 0 30 "INV-A" =
      (c7_low_state, .belowMinimum 5) ∧
    (generate_deferred_invoice c7_high_state 0 30 "INV-B").2 =
      .success "INV-B" 15 37 ∧
    (generate_deferred_invoice c7_high_state 0 30 "INV-B").1.user.deferred_payment_balance = 0 := by
  refine ⟨?_, ?_, ?_⟩
  · exact (c7_generate_invoice_minimum_policy c7_low_state 0 30 "INV-A").1
      (by norm_num [c7_low_state, MIN_DEFERRED_AMOUNT])
  · rw [(c7_generate_invoice_minimum_policy c7_high_state 0 30 "INV-B").2
      (by norm_num [c7_high_state, MIN_DEFERRED_AMOUNT])]
    rfl
  · rw [(c7_generate_invoice_minimum_policy c7_high_state 0 30 "INV-B").2
      (by norm_num [c7_high_state, MIN_DEFERRED_AMOUNT])]

/-- A pending invoice whose stored total is the decimal 99.99 USD. -/
def c8f_invoice : DeferredPayment :=
  { invoice_number := "INV-C", total_amount := mkRat 9999 100, currency := "USD",
    billing_period_start := 0, billing_period_end := 30, status := "pending",
    payment_due_date := 37 }

/-- Concrete state for C8: one pending invoice of 99.99 USD. -/
def c8f_state : BillingState :=
  { user := { total_credits := 0, used_credits := 0, trial_end_date := none,
              subscription_tier := "trial", deferred_payment_balance := 0,
              total_spent := 0 },
    ledger := [],
    invoices := [c8f_invoice] }

/-- Claim C8 counterexample: against the pending 99.99 invoice, a
same-currency payment of 100.00 has exact difference 0.01, inside the
claimed tolerance, yet the program rejects it: the doubles satisfy
100 - fl(99.99) = 703687441777 / 2^46, which exceeds the double nearest
0.01, so the IEEE comparison reports a mismatch and nothing is mutated. -/
theorem c8_counterexample :
    |(100 : ℚ) - c8f_invoice.total_amount| ≤ 1 / 100 ∧
    c8f_invoice.status = "pending" ∧
    process_payment_fp (fun a _ _ => a) c8f_state 0 "card" "r1" 100 "USD" 40 =
      (c8f_state, .amountMismatch c8f_invoice.total_amount 100) := by
  have htot : c8f_invoice.total_amount = mkRat 9999 100 := rfl
  refine ⟨?_, rfl, ?_⟩
  · rw [htot, Rat.mkRat_eq_div]
    have h1 : (100 : ℚ) - (9999 : ℤ) / (100 : ℕ) = 1 / 100 := by norm_num
    rw [h1, abs_of_nonneg (by norm_num)]
  · have hget : c8f_state.invoices.get? 0 = some c8f_invoice := rfl
    have e1 : fl (100 : ℚ) = 100 := by decide
    have e2 : fl c8f_invoice.total_amount = mkRat 7036170730324623 70368744177664 := by
      decide
    have e3 : (100 : ℚ) - mkRat 7036170730324623 70368744177664 =
        mkRat 703687441777 70368744177664 := by
      rw [Rat.mkRat_eq_div, Rat.mkRat_eq_div]
      norm_num
    have e4 : fl (mkRat 703687441777 70368744177664) =
        mkRat 703687441777 70368744177664 := by decide
    have e5 : fl (mkRat 1 100) = mkRat 5764607523034235 576460752303423488 := by decide
    have hcond : |fl (fl (100 : ℚ) - fl c8f_invoice.total_amount)| > fl (mkRat 1 100) := by
      rw [e1, e2, e3, e4, e5,
        abs_of_nonneg (by rw [Rat.mkRat_eq_div]; norm_num),
        Rat.mkRat_eq_div, Rat.mkRat_eq_div]
      norm_num
    simp only [process_payment_fp, hget, ite_self]
    rw [if_pos hcond]

/-- Claim C8 (amended to the program's IEEE-754 comparison): paying an
unpaid invoice in its own currency succeeds and marks it paid when the
double-precision magnitude of fl(amount) minus fl(total) is at most the
double nearest 0.01, and otherwise fails with the amount-mismatch error
carrying expected and got, mutating nothing.  The boundary is the float
one, not the exact-decimal one. -/
theorem c8_payment_tolerance_float (convert_currency : ℚ → String → String → ℚ)
    (s : BillingState) (invoice_id : ℕ) (invoice : DeferredPayment)
    (payment_method payment_reference : String) (amount : ℚ) (today : ℤ)
    (hinv : s.invoices.get? invoice_id = some invoice)
    (hunpaid : invoice.status ≠ "paid") :
    (|fl (fl amount - fl invoice.total_amount)| ≤ fl (mkRat 1 100) →
      (process_payment_fp convert_currency s invoice_id payment_method payment_reference
          amount invoice.currency today).2 =
        .success invoice.invoice_number invoice.total_amount today ∧
      ((process_payment_fp convert_currency s invoice_id payment_method payment_reference
          amount invoice.currency today).1.invoices.get? invoice_id).map
        DeferredPayment.status = some "paid") ∧
    (fl (mkRat 1 100) < |fl (fl amount - fl invoice.total_amount)| →
      process_payment_fp convert_currency s invoice_id payment_method payment_reference
          amount invoice.currency today =
        (s, .amountMismatch invoice.total_amount amount)) := by
  obtain ⟨hlen, -⟩ := List.get?_eq_some.mp hinv
  constructor
  · intro h
    simp only [process_payment_fp, hinv, if_true]
    rw [if_neg (not_lt.mpr h)]
    refine ⟨rfl, ?_⟩
    rw [List.get?_set_eq_of_lt _ hlen]
    rfl
  · intro h
    simp only [process_payment_fp, hinv, if_true]
    rw [if_pos h]

/-- Witness for the amended C8: a payment of exactly 99.99 (double
difference zero) succeeds and marks the invoice paid, while a payment of
95.00 (double difference -4.989999999999995, far outside tolerance)
fails with expected 99.99 and got 95. -/
theorem c8_payment_tolerance_float_witness :
    (process_payment_fp (fun a _ _ => a) c8f_state 0 "card" "r1" (mkRat 9999 100) "USD" 40).2 =
      .success "INV-C" (mkRat 9999 100) 40 ∧
    ((process_payment_fp (fun a _ _ => a) c8f_state 0 "card" "r1" (mkRat 9999 100) "USD" 40).1.invoices.get? 0).map
      DeferredPayment.status = some "paid" ∧
    process_payment_fp (fun a _ _ => a) c8f_state 0 "card" "r1" 95 "USD" 40 =
      (c8f_state, .amountMismatch (mkRat 9999 100) 95) := by
  have htot : c8f_invoice.total_amount = mkRat 9999 100 := rfl
  have e0 : fl (0 : ℚ) = 0 := by decide
  have e5 : fl (mkRat 1 100) = mkRat 5764607523034235 576460752303423488 := by decide
  have hle : |fl (fl (mkRat 9999 100) - fl c8f_invoice.total_amount)| ≤ fl (mkRat 1 100) := by
    rw [htot, sub_self, e0, abs_zero, e5, Rat.mkRat_eq_div]
    norm_num
  have hgt : fl (mkRat 1 100) < |fl (fl (95 : ℚ) - fl c8f_invoice.total_amount)| := by
    have f95 : fl (95 : ℚ) = 95 := by decide
    have e2 : fl c8f_invoice.total_amount = mkRat 7036170730324623 70368744177664 := by
      decide
    have e3 : (95 : ℚ) - mkRat 7036170730324623 70368744177664 =
        mkRat (-351140033446543) 70368744177664 := by
      rw [Rat.mkRat_eq_div, Rat.mkRat_eq_div]
      norm_num
    have e4 : fl (mkRat (-351140033446543) 70368744177664) =
        mkRat (-351140033446543) 70368744177664 := by decide
    rw [f95, e2, e3, e4, e5, abs_of_nonpos (by rw [Rat.mkRat_eq_div]; norm_num),
      Rat.mkRat_eq_div, Rat.mkRat_eq_div]
    norm_num
  have h := c8_payment_tolerance_float (fun a _ _ => a) c8f_state 0 c8f_invoice
    "card" "r1" (mkRat 9999 100) 40 rfl (by decide)
  have h2 := c8_payment_tolerance_float (fun a _ _ => a) c8f_state 0 c8f_invoice
    "card" "r1" 95 40 rfl (by decide)
  exact ⟨(h.1 hle).1, (h.1 hle).2, h2.2 hgt⟩

/-- The account row for the C1 counterexample state. -/
def c1_user : User :=
  { total_credits := 0, used_credits := 0, trial_end_date := none,
    subscription_tier := "trial", deferred_payment_balance := 0, total_spent := 0 }

/-- An invoice of 100 USD that has already been paid. -/
def c1_paid_invoice : DeferredPayment :=
  { invoice_number := "INV-1001", total_amount := 100, currency := "USD",
    billing_period_start := 0, billing_period_end := 30, status := "paid",
    payment_due_date := 37, payment_date := some 38, payment_method := some "card",
    payment_reference := some "ref-1" }

/-- The ledger entry the first, successful payment appended. -/
def c1_first_payment_txn : CreditTransaction :=
  { transaction_type := "payment", amount := 100, payment_method := some "card",
    payment_reference := some "ref-1", status := "completed",
    description := "Payment for invoice" }

/-- State after an invoice of 100 USD was fully paid once. -/
def c1_state : BillingState :=
  { user := c1_user, ledger := [c1_first_payment_txn], invoices := [c1_paid_invoice] }

/-- Claim C1 (code bug): process_payment never inspects the invoice
status, so a second matching payment against an already-paid invoice is
reported as a success, overwrites the payment reference and appends a
second payment ledger entry instead of failing with an already-paid
error. -/
theorem c1_second_payment_of_paid_invoice_succeeds :
    (process_payment (fun a _ _ => a) c1_state 0 "card" "ref-2" 100 "USD" 40).2 =
      .success "INV-1001" 100 40 ∧
    (process_payment (fun a _ _ => a) c1_state 0 "card" "ref-2" 100 "USD" 40).1.ledger.length =
      c1_state.ledger.length + 1 ∧
    ((process_payment (fun a _ _ => a) c1_state 0 "card" "ref-2" 100 "USD" 40).1.invoices.get? 0).map
      DeferredPayment.payment_reference = some (some "ref-2") := by
  have hget : c1_state.invoices.get? 0 = some c1_paid_invoice := rfl
  have habs : ¬(|(100 : ℚ) - c1_paid_invoice.total_amount| > 1 / 100) := by
    have h1 : (100 : ℚ) - c1_paid_invoice.total_amount = 0 := by
      norm_num [c1_paid_invoice]
    rw [h1, abs_zero]
    norm_num
  refine ⟨?_, ?_, ?_⟩ <;>
    · simp only [process_payment, hget, ite_self]
      rw [if_neg habs]
      rfl

/-- An invoice the sweep's select does not take is returned unchanged with
no reminder. -/
theorem sweepInvoice_not_selected (today : ℤ) (invoice : DeferredPayment)
    (h : ¬(invoice.status = "pending" ∧ invoice.payment_due_date < today)) :
    sweepInvoice today invoice = (invoice, []) := by
  simp only [sweepInvoice]
  rw [if_neg h]

/-- An invoice the sweep's select takes comes out with status overdue. -/
theorem sweepInvoice_selected_status (today : ℤ) (invoice : DeferredPayment)
    (h : invoice.status = "pending" ∧ invoice.payment_due_date < today) :
    (sweepInvoice today invoice).1.status = "overdue" := by
  simp only [sweepInvoice, if_pos h]
  by_cases hod : today - invoice.payment_due_date > 7
  · rw [if_pos hod]
  · rw [if_neg hod]

/-- A swept invoice is no longer pending, so sweeping it again at any
date changes nothing and emits nothing. -/
theorem sweepInvoice_idem (today : ℤ) (invoice : DeferredPayment) :
    sweepInvoice today (sweepInvoice today invoice).1 =
      ((sweepInvoice today invoice).1, []) := by
  by_cases h : invoice.status = "pending" ∧ invoice.payment_due_date < today
  · refine sweepInvoice_not_selected today _ ?_
    rintro ⟨hc, -⟩
    rw [sweepInvoice_selected_status today invoice h] at hc
    exact absurd hc (by decide)
  · rw [sweepInvoice_not_selected today invoice h]
    exact sweepInvoice_not_selected today invoice h

/-- Mapping the sweep body over a list each of whose members it fixes
reproduces the list and emits no reminders. -/
theorem sweep_map_fixed (today : ℤ) (l : List DeferredPayment)
    (h : ∀ x ∈ l, sweepInvoice today x = (x, [])) :
    (l.map (sweepInvoice today)).map Prod.fst = l ∧
    ((l.map (sweepInvoice today)).map Prod.snd).flatten = [] := by
  induction l with
  | nil => exact ⟨rfl, rfl⟩
  | cons a l ih =>
    have ha := h a (List.mem_cons_self a l)
    have ih' := ih fun x hx => h x (List.mem_cons_of_mem a hx)
    simp only [List.map_cons, ha, List.flatten_cons]
    exact ⟨by rw [ih'.1], by rw [ih'.2]; rfl⟩

/-- Claim C5: running the overdue sweep twice in a row at the same date is
idempotent: the second run returns the state the first run produced,
invoice for invoice, and emits no reminder at all. -/
theorem c5_sweep_idempotent (s : BillingState) (today : ℤ) :
    check_overdue_invoices (check_overdue_invoices s today).1 today =
      ((check_overdue_invoices s today).1, []) := by
  have hmem : ∀ x ∈ (s.invoices.map (sweepInvoice today)).map Prod.fst,
      sweepInvoice today x = (x, []) := by
    intro x hx
    rw [List.mem_map] at hx
    obtain ⟨p, hp, rfl⟩ := hx
    rw [List.mem_map] at hp
    obtain ⟨inv, -, rfl⟩ := hp
    exact sweepInvoice_idem today inv
  obtain ⟨h1, h2⟩ := sweep_map_fixed today _ hmem
  simp only [check_overdue_invoices]
  rw [h1, h2]

/-- The account row shared by the concrete sweep scenarios. -/
def sweepUser : User :=
  { total_credits := 0, used_credits := 0, trial_end_date := none,
    subscription_tier := "trial", deferred_payment_balance := 0, total_spent := 0 }

/-- A pending invoice of 100 USD due at day 0. -/
def c4_invoice : DeferredPayment :=
  { invoice_number := "INV-D", total_amount := 100, currency := "USD",
    billing_period_start := -40, billing_period_end := -10, status := "pending",
    payment_due_date := 0 }

/-- State holding only the pending 100 USD invoice due at day 0. -/
def c4_state : BillingState :=
  { user := sweepUser, ledger := [], invoices := [c4_invoice] }

/-- Claim C4 counterexample: the sweep selects only pending invoices, so
an invoice first swept 3 days past due is reclassified overdue and a
second sweep 10 days past due skips it: although the invoice is then
overdue by more than 7 days, its late fee stays 0 and its total stays 100,
against the claim that every invoice overdue by more than 7 days gets the
fee. -/
theorem c4_counterexample :
    ((check_overdue_invoices (check_overdue_invoices c4_state 3).1 10).1.invoices.get? 0).map
        DeferredPayment.late_fee = some 0 ∧
    ((check_overdue_invoices (check_overdue_invoices c4_state 3).1 10).1.invoices.get? 0).map
        DeferredPayment.total_amount = some 100 ∧
    ((check_overdue_invoices (check_overdue_invoices c4_state 3).1 10).1.invoices.get? 0).map
        DeferredPayment.status = some "overdue" ∧
    (10 : ℤ) - c4_invoice.payment_due_date > 7 := by
  refine ⟨by decide, by decide, by decide, by decide⟩

/-- Claim C4 (amended): an invoice still pending when a sweep runs more
than 7 days past its due date receives, on that sweep, a late fee of
LATE_FEE_PERCENTAGE percent of its principal, added to its total; because
that sweep reclassifies it overdue and the sweep selects only pending
invoices, any later sweep leaves it untouched, so the fee is applied
exactly once. -/
theorem c4_late_fee_once_on_first_late_sweep (s : BillingState)
    (today today2 : ℤ) (i : ℕ) (inv : DeferredPayment)
    (hi : s.invoices.get? i = some inv)
    (hp : inv.status = "pending")
    (hod : today - inv.payment_due_date > 7) :
    (check_overdue_invoices s today).1.invoices.get? i =
      some { inv with
             overdue_days := today - inv.payment_due_date,
             is_overdue := true,
             status := "overdue",
             late_fee := inv.total_amount * (LATE_FEE_PERCENTAGE / 100),
             total_amount := inv.total_amount + inv.total_amount * (LATE_FEE_PERCENTAGE / 100) } ∧
    (check_overdue_invoices (check_overdue_invoices s today).1 today2).1.invoices.get? i =
      (check_overdue_invoices s today).1.invoices.get? i := by
  have hdue : inv.payment_due_date < today := by omega
  have h1 : (check_overdue_invoices s today).1.invoices.get? i =
      some { inv with
             overdue_days := today - inv.payment_due_date,
             is_overdue := true,
             status := "overdue",
             late_fee := inv.total_amount * (LATE_FEE_PERCENTAGE / 100),
             total_amount := inv.total_amount + inv.total_amount * (LATE_FEE_PERCENTAGE / 100) } := by
    simp only [check_overdue_invoices, List.map_map, List.get?_map, hi, Option.map_some',
      Function.comp_apply, sweepInvoice]
    rw [if_pos ⟨hp, hdue⟩, if_pos hod]
  refine ⟨h1, ?_⟩
  set t := (check_overdue_invoices s today).1 with ht
  simp only [check_overdue_invoices, List.map_map, List.get?_map, h1, Option.map_some',
    Function.comp_apply]
  rw [sweepInvoice_not_selected today2 _ (by simp)]

/-- Witness for the amended C4 at the spec example: the pending 100 USD
invoice swept 10 days past due gets late fee 5.00 and total 105.00, and a
further sweep 20 days past due changes nothing. -/
theorem c4_late_fee_once_on_first_late_sweep_witness :
    ((check_overdue_invoices c4_state 10).1.invoices.get? 0).map
        DeferredPayment.late_fee = some 5 ∧
    ((check_overdue_invoices c4_state 10).1.invoices.get? 0).map
        DeferredPayment.total_amount = some 105 ∧
    (check_overdue_invoices (check_overdue_invoices c4_state 10).1 20).1.invoices.get? 0 =
      (check_overdue_invoices c4_state 10).1.invoices.get? 0 := by
  have h := c4_late_fee_once_on_first_late_sweep c4_state 10 20 0 c4_invoice rfl rfl
    (by decide)
  refine ⟨?_, ?_, h.2⟩
  · rw [h.1, Option.map_some']
    norm_num [c4_invoice, LATE_FEE_PERCENTAGE]
  · rw [h.1, Option.map_some']
    norm_num [c4_invoice, LATE_FEE_PERCENTAGE]

/-- A pending invoice of 100 USD due at day 0 for the C6 scenario. -/
def c6_invoice : DeferredPayment :=
  { invoice_number := "INV-E", total_amount := 100, currency := "USD",
    billing_period_start := -40, billing_period_end := -10, status := "pending",
    payment_due_date := 0 }

/-- State holding only the pending invoice of the C6 scenario. -/
def c6_state : BillingState :=
  { user := sweepUser, ledger := [], invoices := [c6_invoice] }

/-- Claim C6 (code bug): the sweep selects only pending invoices, so a
reminder can fire at most once per invoice, on the single sweep that first
reclassifies it.  Concretely: sweeping one day past due emits no reminder
(1 is not a multiple of 7) and marks the invoice overdue; sweeping again
14 days past due — overdue-ness a positive multiple of 7, where the claim
requires exactly one reminder — emits none, while a fresh pending invoice
first swept at 14 days does get its single reminder. -/
theorem c6_no_repeating_reminder :
    (check_overdue_invoices c6_state 1).2 = [] ∧
    (check_overdue_invoices (check_overdue_invoices c6_state 1).1 14).2 = [] ∧
    ((check_overdue_invoices (check_overdue_invoices c6_state 1).1 14).1.invoices.get? 0).map
        DeferredPayment.status = some "overdue" ∧
    (14 : ℤ) - c6_invoice.payment_due_date = 14 ∧ (14 : ℤ) % 7 = 0 ∧
    (check_overdue_invoices c6_state 14).2.length = 1 := by
  refine ⟨by decide, by decide, by decide, by decide, by decide, by decide⟩

/-- Splitting the credit-delta sum over a newly appended ledger entry. -/
theorem ledgerDeltaSum_cons (t : CreditTransaction) (l : List CreditTransaction) :
    ledgerDeltaSum (t :: l) = creditDelta t + ledgerDeltaSum l := by
  simp [ledgerDeltaSum]

/-- What a successful deduct_credits call does to the credit columns: the
total is untouched, the used count grows by int(amount), and exactly one
usage entry is prepended. -/
theorem deduct_success_effects (s : BillingState) (today : ℤ) (st d : String) (a : ℚ)
    (h : ((deduct_credits s today st a d).2).isSuccess = true) :
    (deduct_credits s today st a d).1.user.total_credits = s.user.total_credits ∧
    (deduct_credits s today st a d).1.user.used_credits = s.user.used_credits + pyInt a ∧
    (deduct_credits s today st a d).1.ledger =
      { transaction_type := "usage", amount := -a, credits_used := some (pyInt a),
        service_type := some st, unit_price := CREDIT_PRICE,
        total_price := a * CREDIT_PRICE, status := "completed",
        description := d : CreditTransaction } :: s.ledger := by
  by_cases hc : (((s.user.total_credits - s.user.used_credits : ℤ)) : ℚ) < a ∧
      ¬(_is_trial_active s.user today = true ∧ s.user.used_credits < TRIAL_CREDITS)
  · exfalso
    simp only [deduct_credits, if_pos hc, DeductOutcome.isSuccess] at h
    exact Bool.false_ne_true h
  · refine ⟨?_, ?_, ?_⟩ <;> simp only [deduct_credits, if_neg hc]

/-- What add_credits does to the credit columns: the used count is
untouched, the total grows by the granted amount, and exactly one
purchase-kind entry is prepended. -/
theorem add_credits_effects (s : BillingState) (n : ℤ) (t : String)
    (pm pr : Option String) :
    (add_credits s n t pm pr).1.user.total_credits = s.user.total_credits + n ∧
    (add_credits s n t pm pr).1.user.used_credits = s.user.used_credits ∧
    (add_credits s n t pm pr).1.ledger =
      { transaction_type := t, amount := (n : ℚ) * CREDIT_PRICE,
        credits_granted := some n, payment_method := pm, payment_reference := pr,
        unit_price := CREDIT_PRICE, total_price := (n : ℚ) * CREDIT_PRICE,
        status := "completed", description := "Added credits" : CreditTransaction } :: s.ledger := by
  refine ⟨?_, ?_, ?_⟩ <;> simp only [add_credits]

/-- Over any sequence of whole-credit operations that all succeed, the sum
of ledger credit deltas moves exactly by the credits granted minus the
credits consumed. -/
theorem runOps_invariant (today : ℤ) (ops : List BillingOp) (s : BillingState)
    (hs : opsAllSucceed today s ops = true) :
    ledgerDeltaSum (runOps today s ops).ledger =
      ledgerDeltaSum s.ledger + opsGranted ops - opsConsumed ops := by
  induction ops generalizing s with
  | nil => simp [runOps, opsGranted, opsConsumed]
  | cons op rest ih =>
    rw [opsAllSucceed, Bool.and_eq_true] at hs
    obtain ⟨h1, h2⟩ := hs
    rw [runOps, ih _ h2]
    cases op with
    | debit st a d =>
      have h1' : ((deduct_credits s today st (a : ℚ) d).2).isSuccess = true := by
        simpa only [applyOp] using h1
      obtain ⟨-, -, hl⟩ := deduct_success_effects s today st d (a : ℚ) h1'
      simp only [applyOp, hl, ledgerDeltaSum_cons, opsGranted, opsConsumed,
        creditDelta, pyInt_intCast, Option.getD_some, Option.getD_none]
      ring
    | credit n t =>
      obtain ⟨-, -, hl⟩ := add_credits_effects s n t none none
      simp only [applyOp, hl, ledgerDeltaSum_cons, opsGranted, opsConsumed,
        creditDelta, Option.getD_some, Option.getD_none]
      ring

/-- Account with 10 whole credits and no trial, for the C2 counterexample. -/
def c2_state : BillingState :=
  { user := { total_credits := 10, used_credits := 0, trial_end_date := none,
              subscription_tier := "trial", deferred_payment_balance := 0,
              total_spent := 0 },
    ledger := [], invoices := [] }

/-- Claim C2 counterexample: deduct_credits records int(amount), so a
successful debit of half a credit leaves used_credits unchanged and
appends a usage entry whose credit delta is 0, not minus the debited
amount — the sum of deltas no longer tracks the amounts consumed. -/
theorem c2_counterexample :
    ((deduct_credits c2_state 0 "voice_processing" (1/2) "half a minute").2).isSuccess = true ∧
    (deduct_credits c2_state 0 "voice_processing" (1/2) "half a minute").1.user.used_credits =
      c2_state.user.used_credits ∧
    ((deduct_credits c2_state 0 "voice_processing" (1/2) "half a minute").1.ledger.head?).map
      creditDelta = some 0 ∧
    (1/2 : ℚ) ≠ 0 := by
  have h12 : (1/2 : ℚ) = mkRat 1 2 := by
    rw [Rat.mkRat_eq_div]
    norm_num
  have hp : pyInt (1/2 : ℚ) = 0 := by
    unfold pyInt
    rw [h12]
    decide
  have hcond : ¬((((c2_state.user.total_credits - c2_state.user.used_credits : ℤ)) : ℚ) < 1/2 ∧
      ¬(_is_trial_active c2_state.user 0 = true ∧ c2_state.user.used_credits < TRIAL_CREDITS)) := by
    rintro ⟨ha, -⟩
    norm_num [c2_state] at ha
  have hp' : pyInt ((2 : ℚ)⁻¹) = 0 := by
    rw [← one_div]
    exact hp
  refine ⟨?_, ?_, ?_, by norm_num⟩ <;>
  · simp only [deduct_credits]
    rw [if_neg hcond]
    simp [creditDelta, hp, hp', DeductOutcome.isSuccess]

/-- Fresh trial account for the C2 witness. -/
def c2w_state : BillingState :=
  { user := { total_credits := 1000, used_credits := 0, trial_end_date := some 30,
              subscription_tier := "trial", deferred_payment_balance := 0,
              total_spent := 0 },
    ledger := [], invoices := [] }

/-- Whole-credit operation sequence for the C2 witness: grant 500, then
debit 200 and 300. -/
def c2w_ops : List BillingOp :=
  [.credit 500 "purchase",
   .debit "chat_processing" 200 "messages",
   .debit "face_processing" 300 "images"]

/-- Claim C2 (amended to whole-credit amounts): over any sequence of
whole-credit grants and debits that all succeed, the reported available
credits equal total minus used, the ledger's summed credit delta moves by
exactly the credits granted minus the credits consumed, and each
successful whole-credit debit of a adds exactly a to used_credits while
prepending exactly one usage entry of credit delta minus a. -/
theorem c2_ledger_conservation (s : BillingState) (today : ℤ) (ops : List BillingOp)
    (hs : opsAllSucceed today s ops = true) :
    (get_user_credits (runOps today s ops) today).available_credits =
      (runOps today s ops).user.total_credits - (runOps today s ops).user.used_credits ∧
    ledgerDeltaSum (runOps today s ops).ledger =
      ledgerDeltaSum s.ledger + opsGranted ops - opsConsumed ops ∧
    ∀ (st d : String) (a : ℤ),
      ((deduct_credits s today st (a : ℚ) d).2).isSuccess = true →
      (deduct_credits s today st (a : ℚ) d).1.user.used_credits = s.user.used_credits + a ∧
      ∃ e, (deduct_credits s today st (a : ℚ) d).1.ledger = e :: s.ledger ∧
        creditDelta e = -a := by
  refine ⟨rfl, runOps_invariant today ops s hs, ?_⟩
  intro st d a h
  obtain ⟨-, hu, hl⟩ := deduct_success_effects s today st d (a : ℚ) h
  rw [pyInt_intCast] at hu
  refine ⟨hu, ⟨_, hl, ?_⟩⟩
  simp [creditDelta, pyInt_intCast]

/-- Witness for C2: the grant-500, debit-200, debit-300 run succeeds, the
ledger delta moves by 500 minus 500, and the single debit of 200 against
the fresh account adds exactly 200 used credits with a ledger entry of
delta minus 200. -/
theorem c2_ledger_conservation_witness :
    opsAllSucceed 0 c2w_state c2w_ops = true ∧
    ledgerDeltaSum (runOps 0 c2w_state c2w_ops).ledger =
      ledgerDeltaSum c2w_state.ledger + opsGranted c2w_ops - opsConsumed c2w_ops ∧
    (deduct_credits c2w_state 0 "chat_processing" ((200 : ℤ) : ℚ) "messages").1.user.used_credits =
      c2w_state.user.used_credits + 200 :=
  ⟨by decide,
   (c2_ledger_conservation c2w_state 0 c2w_ops (by decide)).2.1,
   ((c2_ledger_conservation c2w_state 0 c2w_ops (by decide)).2.2 "chat_processing"
     "messages" 200 (by decide)).1⟩

/-- Unpaid-invoice total over an appended invoice. -/
theorem unpaidTotal_append (l : List DeferredPayment) (x : DeferredPayment) :
    unpaidTotal (l ++ [x]) =
      unpaidTotal l + (if isUnpaid x then x.total_amount else 0) := by
  induction l with
  | nil => simp [unpaidTotal]
  | cons a l ih => simp [unpaidTotal, ih]; ring

/-- Unpaid-invoice total after replacing the invoice at a known index. -/
theorem unpaidTotal_set (l : List DeferredPayment) (i : ℕ) (inv x : DeferredPayment)
    (h : l.get? i = some inv) :
    unpaidTotal (l.set i x) =
      unpaidTotal l - (if isUnpaid inv then inv.total_amount else 0)
        + (if isUnpaid x then x.total_amount else 0) := by
  induction l generalizing i with
  | nil => simp at h
  | cons a l ih =>
    cases i with
    | zero =>
      rw [List.get?_cons_zero, Option.some_inj] at h
      subst h
      simp [unpaidTotal, List.set]
      ring
    | succ j =>
      rw [List.get?_cons_succ] at h
      simp only [List.set, unpaidTotal, ih j h]
      ring

/-- Sweeping cannot shrink an invoice's contribution to the unpaid total:
a selected invoice stays unpaid (overdue) and its total can only grow by a
nonnegative late fee. -/
theorem sweepInvoice_contribution (today : ℤ) (inv : DeferredPayment)
    (h : 0 ≤ inv.total_amount) :
    (if isUnpaid inv then inv.total_amount else 0) ≤
      (if isUnpaid (sweepInvoice today inv).1 then (sweepInvoice today inv).1.total_amount
       else 0) := by
  by_cases hsel : inv.status = "pending" ∧ inv.payment_due_date < today
  · have hfee : 0 ≤ inv.total_amount * (LATE_FEE_PERCENTAGE / 100) :=
      mul_nonneg h (by norm_num [LATE_FEE_PERCENTAGE])
    simp only [sweepInvoice, if_pos hsel]
    by_cases hod : today - inv.payment_due_date > 7
    · rw [if_pos hod]
      simp only [isUnpaid, hsel.1]
      simp
      linarith
    · rw [if_neg hod]
      simp only [isUnpaid, hsel.1]
      simp
  · rw [sweepInvoice_not_selected today inv hsel]

/-- Sweeping cannot shrink the unpaid-invoice total when all invoice
totals are nonnegative. -/
theorem unpaidTotal_sweep_mono (today : ℤ) (l : List DeferredPayment)
    (h : ∀ inv ∈ l, 0 ≤ inv.total_amount) :
    unpaidTotal l ≤ unpaidTotal ((l.map (sweepInvoice today)).map Prod.fst) := by
  induction l with
  | nil => simp [unpaidTotal]
  | cons a l ih =>
    simp only [List.map_cons, unpaidTotal]
    exact add_le_add (sweepInvoice_contribution today a (h a (List.mem_cons_self a l)))
      (ih fun inv hinv => h inv (List.mem_cons_of_mem a hinv))

/-- What a successful process_payment call does to the state: the invoice
at the paid index is replaced by its paid copy, the user row is untouched
and one payment entry is prepended. -/
theorem process_payment_success_effects (conv : ℚ → String → String → ℚ)
    (s : BillingState) (i : ℕ) (inv : DeferredPayment) (m r : String)
    (amt : ℚ) (cur : String) (today : ℤ)
    (hinv : s.invoices.get? i = some inv)
    (h : ((process_payment conv s i m r amt cur today).2).isSuccess = true) :
    (process_payment conv s i m r amt cur today).1.invoices =
      s.invoices.set i
        { inv with
          status := "paid"
          payment_date := some today
          payment_method := some m
          payment_reference := some r } ∧
    (process_payment conv s i m r amt cur today).1.user = s.user := by
  by_cases htol :
      |(if cur = inv.currency then amt else conv amt cur inv.currency) - inv.total_amount| > 1/100
  · exfalso
    simp only [process_payment, hinv, if_pos htol, PaymentOutcome.isSuccess] at h
    exact Bool.false_ne_true h
  · refine ⟨?_, ?_⟩ <;> simp only [process_payment, hinv, if_neg htol]

/-- An invoice holding the billed 20.00 used by the C10 witness. -/
def c10_invoice : DeferredPayment :=
  { invoice_number := "INV-F", total_amount := 20, currency := "USD",
    billing_period_start := -60, billing_period_end := -30, status := "pending",
    payment_due_date := -23 }

/-- Account with unbilled balance 15.00 plus a pending invoice of 20.00. -/
def c10_state : BillingState :=
  { user := { total_credits := 5000, used_credits := 3500, trial_end_date := none,
              subscription_tier := "trial", deferred_payment_balance := 15,
              total_spent := 35 },
    ledger := [], invoices := [c10_invoice] }

/-- Claim C10: the reported deferred balance is the unbilled balance plus
the summed totals of pending and overdue invoices; a successful
generate_deferred_invoice leaves that quantity unchanged (the amount moves
into a pending invoice); debits, credit grants and sweeps never decrease
it; and a successful payment of an unpaid invoice is the one operation
that lowers it, by exactly that invoice's total. -/
theorem c10_deferred_balance_accounting (s : BillingState) (today : ℤ) :
    (get_user_credits s today).deferred_balance =
      s.user.deferred_payment_balance + unpaidTotal s.invoices ∧
    (∀ ps pe n, ((generate_deferred_invoice s ps pe n).2).isSuccess = true →
      _calculate_deferred_balance (generate_deferred_invoice s ps pe n).1 =
        _calculate_deferred_balance s) ∧
    (∀ st d a, (0:ℚ) ≤ a →
      _calculate_deferred_balance s ≤
        _calculate_deferred_balance (deduct_credits s today st a d).1) ∧
    (∀ n t pm pr, _calculate_deferred_balance (add_credits s n t pm pr).1 =
      _calculate_deferred_balance s) ∧
    ((∀ inv ∈ s.invoices, 0 ≤ inv.total_amount) → ∀ d,
      _calculate_deferred_balance s ≤
        _calculate_deferred_balance (check_overdue_invoices s d).1) ∧
    (∀ conv i inv m r amt cur, s.invoices.get? i = some inv → isUnpaid inv = true →
      ((process_payment conv s i m r amt cur today).2).isSuccess = true →
      _calculate_deferred_balance (process_payment conv s i m r amt cur today).1 =
        _calculate_deferred_balance s - inv.total_amount) := by
  refine ⟨rfl, ?_, ?_, ?_, ?_, ?_⟩
  · intro ps pe n h
    by_cases hmin : s.user.deferred_payment_balance < MIN_DEFERRED_AMOUNT
    · exfalso
      simp only [generate_deferred_invoice, if_pos hmin, InvoiceOutcome.isSuccess] at h
      exact Bool.false_ne_true h
    · simp only [generate_deferred_invoice, if_neg hmin, _calculate_deferred_balance,
        unpaidTotal_append]
      simp [isUnpaid]
      ring
  · intro st d a ha
    by_cases hc : (((s.user.total_credits - s.user.used_credits : ℤ)) : ℚ) < a ∧
        ¬(_is_trial_active s.user today = true ∧ s.user.used_credits < TRIAL_CREDITS)
    · simp only [deduct_credits, if_pos hc]
      exact le_rfl
    · have hmon : 0 ≤ a * CREDIT_PRICE := mul_nonneg ha (by norm_num [CREDIT_PRICE])
      simp only [deduct_credits, if_neg hc, _calculate_deferred_balance]
      by_cases hdef : ¬_is_trial_active s.user today = true ∧ s.user.subscription_tier = "trial"
      · rw [if_pos hdef]
        linarith
      · rw [if_neg hdef]
  · intro n t pm pr
    simp only [add_credits, _calculate_deferred_balance]
  · intro hpos d
    simp only [check_overdue_invoices, _calculate_deferred_balance]
    exact add_le_add le_rfl (unpaidTotal_sweep_mono d s.invoices hpos)
  · intro conv i inv m r amt cur hinv hunp h
    obtain ⟨hset, huser⟩ := process_payment_success_effects conv s i inv m r amt cur today hinv h
    simp only [_calculate_deferred_balance, hset, huser,
      unpaidTotal_set s.invoices i inv _ hinv, hunp, if_true]
    simp [isUnpaid]
    ring

/-- Witness for C10 on the concrete account: generating the 15.00 invoice
preserves the reported deferred balance, a debit and a sweep do not lower
it, and paying the 20.00 invoice lowers it by exactly 20. -/
theorem c10_deferred_balance_accounting_witness :
    _calculate_deferred_balance (generate_deferred_invoice c10_state 0 30 "INV-X").1 =
      _calculate_deferred_balance c10_state ∧
    _calculate_deferred_balance c10_state ≤
      _calculate_deferred_balance (deduct_credits c10_state 40 "chat_processing" 3 "m").1 ∧
    _calculate_deferred_balance c10_state ≤
      _calculate_deferred_balance (check_overdue_invoices c10_state 40).1 ∧
    _calculate_deferred_balance
        (process_payment (fun a _ _ => a) c10_state 0 "card" "r" 20 "USD" 40).1 =
      _calculate_deferred_balance c10_state - c10_invoice.total_amount := by
  have hpay : ((process_payment (fun a _ _ => a) c10_state 0 "card" "r" 20 "USD" 40).2).isSuccess
      = true := by
    have hget : c10_state.invoices.get? 0 = some c10_invoice := rfl
    have habs : ¬(|(20:ℚ) - c10_invoice.total_amount| > 1/100) := by
      have h0 : (20:ℚ) - c10_invoice.total_amount = 0 := by norm_num [c10_invoice]
      rw [h0, abs_zero]
      norm_num
    simp only [process_payment, hget, ite_self]
    rw [if_neg habs]
    rfl
  have h := c10_deferred_balance_accounting c10_state 40
  refine ⟨h.2.1 0 30 "INV-X" (by decide), ?_, ?_, ?_⟩
  · exact h.2.2.1 "chat_processing" "m" 3 (by norm_num)
  · refine h.2.2.2.2.1 ?_ 40
    intro inv hinv
    simp only [c10_state, List.mem_singleton] at hinv
    subst hinv
    norm_num [c10_invoice]
  · exact h.2.2.2.2.2 (fun a _ _ => a) 0 c10_invoice "card" "r" 20 "USD" rfl (by decide) hpay

end Matrxe
